import Mathlib

/-!
# TGV Times — journey classification and formatting, verified embedding

Shallow embedding of `src/frontend/utils.py`: the journey classifier
(`filter_tgv_journeys`), the delay helper (`calculate_delay_minutes`) and the
journey formatter (`format_journey_data`), together with theorems settling the
specification claims about them.

Python dictionaries with possibly-absent keys are modelled with `Option`
fields; `d.get(k, default)` becomes `Option.getD`, `d[k]` becomes a fallible
lookup (`Option.bind`), and a Python exception is `none` in an
`Option`-returning function. Python's truthiness test on an optional string
(`if s:`) is "present and non-empty". `datetime.strptime(s, "%Y%m%dT%H%M%S")`
is modelled by a fixed-width parser that validates the calendar fields exactly
as `datetime` does, and datetime subtraction by the difference of
proleptic-Gregorian total-second counts (CPython's `toordinal` arithmetic).
`int(x)` on a float quotient truncates toward zero, hence `Int.div`.
-/

/-- Python truthiness of an optional string: `None` and `""` are falsy. -/
def truthyStr (o : Option String) : Bool :=
  match o with
  | none => false
  | some s => !s.isEmpty

/-- `pat` occurs as a prefix of `l` (character lists). -/
def charsHavePre (pat l : List Char) : Bool :=
  match pat, l with
  | [], _ => true
  | _ :: _, [] => false
  | p :: ps, c :: cs => p == c && charsHavePre ps cs

/-- `pat` occurs as a contiguous substring of `l` (character lists). -/
def charsHaveSub (pat l : List Char) : Bool :=
  match l with
  | [] => charsHavePre pat []
  | _ :: cs => charsHavePre pat l || charsHaveSub pat cs

/-- Python's `pat in hay` on strings: substring containment. -/
def strContains (hay pat : String) : Bool :=
  charsHaveSub pat.data hay.data

/-- Python `str.lower()`: lower-case each character (the inputs of interest
are ASCII, where CPython and `Char.toLower` agree). -/
def strLower (s : String) : String :=
  ⟨s.data.map Char.toLower⟩

/-- Zero-padded two-digit rendering, Python's `f"{n:02d}"` for `0 ≤ n`. -/
def pad2 (n : Nat) : String :=
  if n < 10 then "0" ++ toString n else toString n

/-! ## Calendar arithmetic (CPython `datetime`) -/

/-- Gregorian leap-year test, as in CPython `datetime._is_leap`. -/
def isLeapYear (y : Nat) : Bool :=
  y % 4 == 0 && (y % 100 != 0 || y % 400 == 0)

/-- Days in month `m` of year `y` (months are 1-based). -/
def daysInMonth (y m : Nat) : Nat :=
  if m == 2 then (if isLeapYear y then 29 else 28)
  else if m == 4 || m == 6 || m == 9 || m == 11 then 30
  else 31

/-- Days in year `y` strictly before month `m`. -/
def daysBeforeMonth (y m : Nat) : Nat :=
  (List.range (m - 1)).foldl (fun acc i => acc + daysInMonth y (i + 1)) 0

/-- Proleptic-Gregorian ordinal of a date, as CPython `date.toordinal`:
day 1 is January 1 of year 1. -/
def toOrdinal (y m d : Nat) : Nat :=
  (y - 1) * 365 + (y - 1) / 4 - (y - 1) / 100 + (y - 1) / 400
    + daysBeforeMonth y m + d

/-- A parsed `datetime` value (second precision, no timezone). -/
structure DT where
  year : Nat
  month : Nat
  day : Nat
  hour : Nat
  minute : Nat
  second : Nat
deriving Repr, DecidableEq

/-- Total seconds of a datetime from the proleptic-Gregorian epoch;
differences of these model `(a - b).total_seconds()`. -/
def dtSeconds (t : DT) : Nat :=
  toOrdinal t.year t.month t.day * 86400
    + t.hour * 3600 + t.minute * 60 + t.second

/-- Value of a decimal digit character, `none` if not a digit. -/
def digitVal (c : Char) : Option Nat :=
  if c.isDigit then some (c.toNat - 48) else none

/-- Two-digit decimal number from two characters. -/
def parse2 (a b : Char) : Option Nat := do
  let x ← digitVal a
  let y ← digitVal b
  pure (10 * x + y)

/-- Four-digit decimal number from four characters. -/
def parse4 (a b c d : Char) : Option Nat := do
  let x ← parse2 a b
  let y ← parse2 c d
  pure (100 * x + y)

/-- `datetime.strptime(s, "%Y%m%dT%H%M%S")`: fixed-width `YYYYMMDDTHHMMSS`
parse with the range validation the `datetime` constructor performs;
`none` models the raised `ValueError`. -/
def parseDT (s : String) : Option DT :=
  match s.data with
  | [y1, y2, y3, y4, m1, m2, d1, d2, t, h1, h2, n1, n2, s1, s2] =>
    if t = 'T' then do
      let y ← parse4 y1 y2 y3 y4
      let m ← parse2 m1 m2
      let d ← parse2 d1 d2
      let h ← parse2 h1 h2
      let n ← parse2 n1 n2
      let sec ← parse2 s1 s2
      if 1 ≤ y && 1 ≤ m && m ≤ 12 && 1 ≤ d && d ≤ daysInMonth y m
          && h ≤ 23 && n ≤ 59 && sec ≤ 59 then
        pure ⟨y, m, d, h, n, sec⟩
      else none
    else none
  | _ => none

/-- `datetime.strftime("%H:%M")`. -/
def strfHM (t : DT) : String :=
  pad2 t.hour ++ ":" ++ pad2 t.minute

/-! ## Data model (`RawJourney` / `Section` from the Navitia API) -/

/-- `display_informations` mapping of a section. -/
structure DisplayInfo where
  physical_mode : Option String
  commercial_mode : Option String
  headsign : Option String
deriving Repr, DecidableEq

/-- The empty `display_informations` (`.get("display_informations", {})`). -/
def DisplayInfo.empty : DisplayInfo := ⟨none, none, none⟩

/-- A stop point, carrying a name. -/
structure StopPoint where
  name : Option String
deriving Repr, DecidableEq

/-- A `from`/`to` place, nesting a stop point. -/
structure Place where
  stop_point : Option StopPoint
deriving Repr, DecidableEq

/-- A journey section. -/
structure Section where
  type : Option String
  display_informations : Option DisplayInfo
  «from» : Option Place
  «to» : Option Place
  base_departure_date_time : Option String
  departure_date_time : Option String
  base_arrival_date_time : Option String
  arrival_date_time : Option String
deriving Repr, DecidableEq

/-- A raw journey from the Navitia API. -/
structure Journey where
  nb_transfers : Option Int
  sections : Option (List Section)
  departure_date_time : Option String
  arrival_date_time : Option String
  duration : Option Int
deriving Repr, DecidableEq

/-- Is this section a `public_transport` section? -/
def isPT (s : Section) : Bool :=
  s.type == some "public_transport"

/-! ## `calculate_delay_minutes` -/

/-- `calculate_delay_minutes(scheduled_time, actual_time)`:
`int((actual - scheduled).total_seconds() / 60)`. Python `int()` on the float
quotient truncates toward zero, which is `Int.div`; `none` models the
`ValueError` raised by `strptime` on a malformed input. -/
def calculate_delay_minutes (scheduled_time actual_time : String) : Option Int := do
  let scheduled ← parseDT scheduled_time
  let actual ← parseDT actual_time
  pure (Int.tdiv ((dtSeconds actual : Int) - (dtSeconds scheduled : Int)) 60)

/-! ## `filter_tgv_journeys` (the Journey Classifier) -/

/-- Is the provider filter active? Python `provider_filter and
provider_filter != "All"`: `None` and `""` are falsy. -/
def providerActive (provider_filter : Option String) : Bool :=
  match provider_filter with
  | none => false
  | some v => !v.isEmpty && v != "All"

/-- `is_high_speed`: the section's physical mode (lower-cased) contains
"grande vitesse" or "high speed". -/
def isHighSpeedSection (s : Section) : Bool :=
  let display_info := s.display_informations.getD DisplayInfo.empty
  let physical_mode := strLower (display_info.physical_mode.getD "")
  strContains physical_mode "grande vitesse"
    || strContains physical_mode "high speed"

/-- Decision taken at the first `public_transport` section: accept iff the
physical mode (lower-cased) contains "grande vitesse" or "high speed", and,
when the provider filter is active, the commercial mode equals it exactly. -/
def sectionDecision (provider_filter : Option String) (s : Section) : Bool :=
  let display_info := s.display_informations.getD DisplayInfo.empty
  let is_high_speed := isHighSpeedSection s
  if is_high_speed then
    if providerActive provider_filter then
      display_info.commercial_mode == provider_filter
    else true
  else false

/-- The inner `for section in j.get("sections", [])` loop: skip non
`public_transport` sections, decide at the first `public_transport` one and
`break`. -/
def checkSections (sections : List Section) (provider_filter : Option String) : Bool :=
  match sections with
  | [] => false
  | s :: rest =>
    if isPT s then sectionDecision provider_filter s
    else checkSections rest provider_filter

/-- Does journey `j` pass the classifier? (`nb_transfers` check plus the
section loop.) Missing `nb_transfers` defaults to `0`. -/
def journeyQualifies (provider_filter : Option String) (j : Journey) : Bool :=
  if (j.nb_transfers.getD 0) != 0 then false
  else checkSections (j.sections.getD []) provider_filter

/-- `filter_tgv_journeys(journeys, provider_filter)`. -/
def filter_tgv_journeys (journeys : List Journey)
    (provider_filter : Option String := none) : List Journey :=
  journeys.filter (journeyQualifies provider_filter)

/-! ## `format_journey_data` (the Journey Formatter) -/

/-- One produced row, the helper sort columns (`_departure_dt`,
`_arrival_dt`) still included. -/
structure RowFull where
  id : Nat
  provider : String
  train_number : String
  from_station : String
  to_station : String
  departure_display : String
  arrival_display : String
  duration_display : String
  departure_delay_minutes : Int
  arrival_delay_minutes : Int
  status : String
  departure_dt : DT
  arrival_dt : DT
deriving Repr, DecidableEq

/-- A normalized output record, after the helper columns are dropped. -/
structure NormalizedRecord where
  id : Nat
  provider : String
  train_number : String
  from_station : String
  to_station : String
  departure_display : String
  arrival_display : String
  duration_display : String
  departure_delay_minutes : Int
  arrival_delay_minutes : Int
  status : String
deriving Repr, DecidableEq

/-- `df.drop(columns=["_departure_dt", "_arrival_dt"])`, per row. -/
def RowFull.dropHelpers (r : RowFull) : NormalizedRecord :=
  ⟨r.id, r.provider, r.train_number, r.from_station, r.to_station,
    r.departure_display, r.arrival_display, r.duration_display,
    r.departure_delay_minutes, r.arrival_delay_minutes, r.status⟩

/-- Station/train/provider extraction from the first `public_transport`
section (`"N/A"` defaults at every missing level). -/
def stationFields (sections : List Section) : String × String × String × String :=
  match sections.find? isPT with
  | none => ("N/A", "N/A", "N/A", "N/A")
  | some s =>
    let departure_station :=
      (((s.«from».getD ⟨none⟩).stop_point).getD ⟨none⟩).name.getD "N/A"
    let arrival_station :=
      (((s.«to».getD ⟨none⟩).stop_point).getD ⟨none⟩).name.getD "N/A"
    let di := s.display_informations.getD DisplayInfo.empty
    (departure_station, arrival_station, di.headsign.getD "N/A",
      di.commercial_mode.getD "N/A")

/-- `if base and actual: delay = calculate_delay_minutes(base, actual)`:
delay is computed only when both fields are present and non-empty, else `0`;
`none` models a `ValueError` from `strptime` inside the helper. -/
def sectionDelay (base actual : Option String) : Option Int :=
  match base, actual with
  | some b, some a =>
    if !b.isEmpty && !a.isEmpty then calculate_delay_minutes b a else some 0
  | _, _ => some 0

/-- Departure and arrival delays from the first `public_transport` section;
`(0, 0)` when there is none. -/
def sectionDelays (sections : List Section) : Option (Int × Int) :=
  match sections.find? isPT with
  | none => some (0, 0)
  | some s => do
    let departure_delay ← sectionDelay s.base_departure_date_time s.departure_date_time
    let arrival_delay ← sectionDelay s.base_arrival_date_time s.arrival_date_time
    pure (departure_delay, arrival_delay)

/-- `f"{n:02d}"` for an integer known to be in `[0, 60)`. -/
def pad2Int (n : Int) : String :=
  if n < 10 then "0" ++ toString n else toString n

/-- `f"{duration_hours}h{duration_mins:02d}"` with Python floor division
(`//` is `Int.fdiv`, `%` is `Int.emod`). -/
def durationDisplay (duration_seconds : Int) : String :=
  let duration_minutes := Int.fdiv duration_seconds 60
  let duration_hours := Int.fdiv duration_minutes 60
  let duration_mins := Int.emod duration_minutes 60
  toString duration_hours ++ "h" ++ pad2Int duration_mins

/-- The loop body of `format_journey_data` for journey `journey` at index
`idx`: `none` models a raised `KeyError` (`journey["departure_date_time"]`,
`journey["arrival_date_time"]`, `journey["duration"]`) or `ValueError`
(`strptime`). -/
def formatOne (idx : Nat) (journey : Journey) : Option RowFull := do
  let depStr ← journey.departure_date_time
  let departure_time ← parseDT depStr
  let arrStr ← journey.arrival_date_time
  let arrival_time ← parseDT arrStr
  let sections := journey.sections.getD []
  let sf := stationFields sections
  let delays ← sectionDelays sections
  let duration_seconds ← journey.duration
  pure {
    id := idx
    provider := sf.2.2.2
    train_number := sf.2.2.1
    from_station := sf.1
    to_station := sf.2.1
    departure_display := strfHM departure_time
    arrival_display := strfHM arrival_time
    duration_display := durationDisplay duration_seconds
    departure_delay_minutes := delays.1
    arrival_delay_minutes := delays.2
    status :=
      if delays.1 > 5 || delays.2 > 5 then "Delayed" else "On Time"
    departure_dt := departure_time
    arrival_dt := arrival_time }

/-- The `for idx, journey in enumerate(journeys)` loop, building the data
list; any per-journey exception aborts the whole call. -/
def formatRowsFrom : Nat → List Journey → Option (List RowFull)
  | _, [] => some []
  | idx, j :: rest => do
    let r ← formatOne idx j
    let rs ← formatRowsFrom (idx + 1) rest
    pure (r :: rs)

/-- The full pre-sort data list. -/
def formatRows (journeys : List Journey) : Option (List RowFull) :=
  formatRowsFrom 0 journeys

/-- `df.sort_values("_arrival_dt")` / `df.sort_values("_departure_dt")`
according to `sort_by.lower()`. pandas sorts the rows by the chosen datetime
column; the relative order of rows with equal keys under the default
`kind="quicksort"` is not specified by pandas, and is modelled here by a
comparison sort on that column — no theorem below relies on the model's tie
order. -/
def sortRows (sort_by : String) (rows : List RowFull) : List RowFull :=
  if strLower sort_by == "arrival" then
    List.insertionSort (fun a b => dtSeconds a.arrival_dt ≤ dtSeconds b.arrival_dt) rows
  else
    List.insertionSort (fun a b => dtSeconds a.departure_dt ≤ dtSeconds b.departure_dt) rows

/-- `format_journey_data(journeys, sort_by)`: returns the sorted normalized
records (the DataFrame) paired with the untouched input journey list; `none`
models a raised exception. When the data list is empty, `pd.DataFrame([])` is
a DataFrame with no columns at all, so `df.sort_values("_departure_dt")` (or
`"_arrival_dt"`) raises `KeyError` on the missing column — the empty batch is
an error path, not a success. -/
def format_journey_data (journeys : List Journey) (sort_by : String := "departure") :
    Option (List NormalizedRecord × List Journey) := do
  let rows ← formatRows journeys
  if rows.isEmpty then none
  else
    let sorted := sortRows sort_by rows
    pure (sorted.map RowFull.dropHelpers, journeys)

/-! ## Specification-side predicates (for refinement claims) -/

/-- Specification-side qualification, following the claim's words literally:
`nb_transfers == 0`, and the journey CONTAINS AT LEAST ONE `public_transport`
section that is high-speed and (when the filter is active) provider-matching.
To be compared with the classifier, which stops at the first
`public_transport` section. -/
def specQualifiesSome (provider_filter : Option String) (j : Journey) : Bool :=
  (j.nb_transfers.getD 0 == 0)
    && (j.sections.getD []).any (fun s => isPT s && sectionDecision provider_filter s)

/-- Specification-side qualification, amended: `nb_transfers == 0` (missing
treated as 0), and the FIRST `public_transport` section, if any, is
high-speed and (when the filter is active) provider-matching. -/
def specQualifiesFirst (provider_filter : Option String) (j : Journey) : Bool :=
  (j.nb_transfers.getD 0 == 0)
    && (match (j.sections.getD []).find? isPT with
        | none => false
        | some s => sectionDecision provider_filter s)

/-- Specification-side delay, following the claim's words literally:
`floor((actual - scheduled).total_seconds() / 60)`, flooring toward negative
infinity (`Int.fdiv`). To be compared with `calculate_delay_minutes`. -/
def specFloorDelay (scheduled_time actual_time : String) : Option Int := do
  let scheduled ← parseDT scheduled_time
  let actual ← parseDT actual_time
  pure (Int.fdiv ((dtSeconds actual : Int) - (dtSeconds scheduled : Int)) 60)

/-- A journey on which the formatter cannot fail: journey-level departure and
arrival timestamps present and parseable, `duration` present, and the delay
computation on the first `public_transport` section (if any) does not raise. -/
def wellFormedJourney (j : Journey) : Bool :=
  (match j.departure_date_time with
   | some s => (parseDT s).isSome
   | none => false)
  && (match j.arrival_date_time with
      | some s => (parseDT s).isSome
      | none => false)
  && j.duration.isSome
  && (sectionDelays (j.sections.getD [])).isSome

/-! ## Concrete inputs used by witnesses and counterexamples -/

/-- The `public_transport` section of the spec's scenario (§8): TGV INOUI
train 6611, scheduled 08:00:00, actual 08:07:00. -/
def sectionScenario : Section :=
  { type := some "public_transport"
    display_informations :=
      some ⟨some "Train grande vitesse", some "TGV INOUI", some "6611"⟩
    «from» := none
    «to» := none
    base_departure_date_time := some "20240101T080000"
    departure_date_time := some "20240101T080700"
    base_arrival_date_time := none
    arrival_date_time := none }

/-- The spec's scenario journey (§8). -/
def journeyScenario : Journey :=
  { nb_transfers := some 0
    sections := some [sectionScenario]
    departure_date_time := some "20240101T080700"
    arrival_date_time := some "20240101T100000"
    duration := some 6780 }

/-- A `public_transport` section that is NOT high-speed (a coach). -/
def sectionCoach : Section :=
  { type := some "public_transport"
    display_informations := some ⟨some "Autocar", some "BlaBlaBus", some "77"⟩
    «from» := none
    «to» := none
    base_departure_date_time := none
    departure_date_time := none
    base_arrival_date_time := none
    arrival_date_time := none }

/-- A direct journey whose FIRST `public_transport` section is not
high-speed but whose second one is. -/
def journeyTwoPT : Journey :=
  { nb_transfers := some 0
    sections := some [sectionCoach, sectionScenario]
    departure_date_time := some "20240101T080700"
    arrival_date_time := some "20240101T100000"
    duration := some 6780 }

/-- The scenario journey with its `duration` field missing. -/
def journeyNoDuration : Journey :=
  { nb_transfers := some 0
    sections := some [sectionScenario]
    departure_date_time := some "20240101T080700"
    arrival_date_time := some "20240101T100000"
    duration := none }

/-- The scenario journey with its `nb_transfers` field missing. -/
def journeyNoTransfers : Journey :=
  { nb_transfers := none
    sections := some [sectionScenario]
    departure_date_time := some "20240101T080700"
    arrival_date_time := some "20240101T100000"
    duration := some 6780 }

/-- A well-formed journey with no `public_transport` section at all. -/
def journeyNoPT : Journey :=
  { nb_transfers := some 0
    sections := some []
    departure_date_time := some "20240101T090000"
    arrival_date_time := some "20240101T110000"
    duration := some 7200 }

/-- A journey with nothing but a transfer count: every other field
missing. -/
def journeyBare : Journey :=
  { nb_transfers := some 0
    sections := none
    departure_date_time := none
    arrival_date_time := none
    duration := none }

/-- A `public_transport` section with no `display_informations` at all. -/
def sectionNoDI : Section :=
  { type := some "public_transport"
    display_informations := none
    «from» := none
    «to» := none
    base_departure_date_time := none
    departure_date_time := none
    base_arrival_date_time := none
    arrival_date_time := none }

/-- A direct journey whose only section lacks `display_informations`. -/
def journeyNoDI : Journey :=
  { nb_transfers := some 0
    sections := some [sectionNoDI]
    departure_date_time := some "20240101T080700"
    arrival_date_time := some "20240101T100000"
    duration := some 6780 }

/-- The row the formatter produces for `journeyScenario` at index 0. -/
def rowScenario : RowFull :=
  ⟨0, "TGV INOUI", "6611", "N/A", "N/A", "08:07", "10:00", "1h53", 7, 0,
    "Delayed", ⟨2024, 1, 1, 8, 7, 0⟩, ⟨2024, 1, 1, 10, 0, 0⟩⟩

/-- The row the formatter produces for `journeyNoPT` at index 0. -/
def rowNoPT : RowFull :=
  ⟨0, "N/A", "N/A", "N/A", "N/A", "09:00", "11:00", "2h00", 0, 0,
    "On Time", ⟨2024, 1, 1, 9, 0, 0⟩, ⟨2024, 1, 1, 11, 0, 0⟩⟩

/-! ## Structural lemmas about the classifier -/

/-- The section loop is the decision at the first `public_transport`
section, when there is one. -/
theorem checkSections_eq_find (provider_filter : Option String) (l : List Section) :
    checkSections l provider_filter =
      (match l.find? isPT with
       | none => false
       | some s => sectionDecision provider_filter s) := by
  induction l with
  | nil => rfl
  | cons s rest ih =>
    simp only [checkSections, List.find?]
    cases h : isPT s with
    | true => simp [h]
    | false => simp [h, ih]

/-- The classifier's per-journey test equals the amended first-section
specification predicate. -/
theorem journeyQualifies_eq_first (provider_filter : Option String) (j : Journey) :
    journeyQualifies provider_filter j = specQualifiesFirst provider_filter j := by
  unfold journeyQualifies specQualifiesFirst
  rw [checkSections_eq_find]
  cases h : (j.nb_transfers.getD 0 == 0) <;> simp [bne, h]

/-- The section decision does not depend on which inactive filter is
passed. -/
theorem sectionDecision_inactive (pf₁ pf₂ : Option String)
    (h₁ : providerActive pf₁ = false) (h₂ : providerActive pf₂ = false)
    (s : Section) : sectionDecision pf₁ s = sectionDecision pf₂ s := by
  unfold sectionDecision
  rw [h₁, h₂]
  simp

/-- Neither does the section loop. -/
theorem checkSections_inactive (pf₁ pf₂ : Option String)
    (h₁ : providerActive pf₁ = false) (h₂ : providerActive pf₂ = false)
    (l : List Section) : checkSections l pf₁ = checkSections l pf₂ := by
  rw [checkSections_eq_find, checkSections_eq_find]
  cases l.find? isPT with
  | none => rfl
  | some s => exact sectionDecision_inactive pf₁ pf₂ h₁ h₂ s

/-! ## Claim theorems -/

/-- C10: passing `provider_filter = None`, `= "All"` or `= ""` to the
classifier produces the same output on every input sequence — each of these
values disables provider filtering. -/
theorem claim_C10_filter_disabled (journeys : List Journey) :
    filter_tgv_journeys journeys (some "All") = filter_tgv_journeys journeys none
    ∧ filter_tgv_journeys journeys (some "") = filter_tgv_journeys journeys none := by
  refine ⟨?_, ?_⟩ <;>
  · unfold filter_tgv_journeys
    apply List.filter_congr
    intro j _
    unfold journeyQualifies
    rw [checkSections_inactive _ none (by decide) (by decide)]

/-- C1 (counterexample): a direct journey whose first `public_transport`
section is a coach but whose second one is high-speed: it CONTAINS a
qualifying high-speed `public_transport` section, yet the classifier
excludes it — the claimed "contains at least one section" characterization
is false. -/
theorem claim_C1_counterexample :
    ¬ (journeyTwoPT ∈ filter_tgv_journeys [journeyTwoPT] none
        ↔ specQualifiesSome none journeyTwoPT = true) := by decide

/-- C1 (amended): the classifier's output contains a journey iff the journey
is in the input, `nb_transfers` (defaulting to 0 when missing) is 0, and the
FIRST `public_transport` section is high-speed and, when a provider filter is
active, that section's `commercial_mode` equals the filter exactly. -/
theorem claim_C1_membership (provider_filter : Option String)
    (journeys : List Journey) (j : Journey) :
    j ∈ filter_tgv_journeys journeys provider_filter
      ↔ j ∈ journeys ∧ specQualifiesFirst provider_filter j = true := by
  unfold filter_tgv_journeys
  rw [List.mem_filter, journeyQualifies_eq_first]

/-- C2 (counterexample): a train 30 seconds early. The code computes
`int(-30 / 60) = 0` (truncation toward zero), while the claimed
floor-toward-negative-infinity gives `-1`. -/
theorem claim_C2_counterexample :
    calculate_delay_minutes "20240101T080030" "20240101T080000" = some 0
    ∧ specFloorDelay "20240101T080030" "20240101T080000" = some (-1) := by decide

/-- C3 (counterexample): a journey with a missing `duration` field makes the
whole formatter call raise (`KeyError`), instead of degrading to a
placeholder — the batch is not produced. -/
theorem claim_C3_counterexample :
    journeyNoDuration.duration = none
    ∧ format_journey_data [journeyNoDuration] "departure" = none := by decide

/-- C8 (counterexample): a journey with a MISSING `nb_transfers` field whose
first section is a qualifying high-speed `public_transport` section is
INCLUDED by the classifier (the missing field defaults to 0), not excluded
as the claim states. -/
theorem claim_C8_counterexample :
    journeyNoTransfers.nb_transfers = none
    ∧ filter_tgv_journeys [journeyNoTransfers] none = [journeyNoTransfers] := by decide

/-- C9: the spec's end-to-end scenario. Classifying the single scenario
journey with no provider filter and formatting yields exactly one record,
with `departure_delay_minutes = 7`, `status = "Delayed"` and
`duration_display = "1h53"`. -/
theorem claim_C9_scenario :
    ∃ r : NormalizedRecord,
      format_journey_data (filter_tgv_journeys [journeyScenario] none) "departure"
        = some ([r], [journeyScenario])
      ∧ r.departure_delay_minutes = 7 ∧ r.status = "Delayed"
      ∧ r.duration_display = "1h53" :=
  ⟨⟨0, "TGV INOUI", "6611", "N/A", "N/A", "08:07", "10:00", "1h53", 7, 0, "Delayed"⟩,
    by decide, rfl, rfl, rfl⟩

/-! ## Structural lemmas about the formatter -/

/-- A produced row's `id` is the enumeration index it was built at. -/
theorem formatOne_id {idx : Nat} {j : Journey} {r : RowFull}
    (h : formatOne idx j = some r) : r.id = idx := by
  unfold formatOne at h
  simp only [Option.bind_eq_bind, Option.bind_eq_some, Option.pure_def,
    Option.some_inj] at h
  obtain ⟨ds, _, dt, _, as_, _, at_, _, dl, _, du, _, hr⟩ := h
  subst hr
  rfl

/-- A produced row's `status` is determined by its two delay fields via the
strictly-greater-than-5 test. -/
theorem formatOne_status {idx : Nat} {j : Journey} {r : RowFull}
    (h : formatOne idx j = some r) :
    r.status = (if r.departure_delay_minutes > 5 || r.arrival_delay_minutes > 5
      then "Delayed" else "On Time") := by
  unfold formatOne at h
  simp only [Option.bind_eq_bind, Option.bind_eq_some, Option.pure_def,
    Option.some_inj] at h
  obtain ⟨ds, _, dt, _, as_, _, at_, _, dl, _, du, _, hr⟩ := h
  subst hr
  rfl

/-- A journey without a `public_transport` section degrades to `"N/A"`
station/train/provider fields and zero delays. -/
theorem formatOne_noPT {idx : Nat} {j : Journey} {r : RowFull}
    (hfind : (j.sections.getD []).find? isPT = none)
    (h : formatOne idx j = some r) :
    r.provider = "N/A" ∧ r.train_number = "N/A" ∧ r.from_station = "N/A"
      ∧ r.to_station = "N/A" ∧ r.departure_delay_minutes = 0
      ∧ r.arrival_delay_minutes = 0 := by
  unfold formatOne at h
  simp only [Option.bind_eq_bind, Option.bind_eq_some, Option.pure_def,
    Option.some_inj] at h
  obtain ⟨ds, hds, dt, hdt, as_, has, at_, hat, dl, hdl, du, hdu, hr⟩ := h
  unfold sectionDelays at hdl
  rw [hfind] at hdl
  have hdl' : dl = (0, 0) := by
    simpa using hdl.symm
  subst hr
  subst hdl'
  simp [stationFields, hfind]

/-- The formatter cannot fail on a well-formed journey. -/
theorem formatOne_isSome (idx : Nat) (j : Journey)
    (hw : wellFormedJourney j = true) : (formatOne idx j).isSome = true := by
  unfold wellFormedJourney at hw
  simp only [Bool.and_eq_true] at hw
  obtain ⟨⟨⟨h1, h2⟩, h3⟩, h4⟩ := hw
  unfold formatOne
  cases hd : j.departure_date_time with
  | none => rw [hd] at h1; exact absurd h1 (by simp)
  | some ds =>
    rw [hd] at h1
    obtain ⟨dtv, hdtv⟩ := Option.isSome_iff_exists.mp h1
    cases ha : j.arrival_date_time with
    | none => rw [ha] at h2; exact absurd h2 (by simp)
    | some as_ =>
      rw [ha] at h2
      obtain ⟨atv, hatv⟩ := Option.isSome_iff_exists.mp h2
      obtain ⟨duv, hduv⟩ := Option.isSome_iff_exists.mp h3
      obtain ⟨dlv, hdlv⟩ := Option.isSome_iff_exists.mp h4
      simp [hd, ha, hdtv, hatv, hdlv, hduv]

/-- On a list of well-formed journeys the enumeration loop succeeds and
produces one row per journey. -/
theorem formatRowsFrom_isSome (js : List Journey) :
    ∀ i, (∀ j ∈ js, wellFormedJourney j = true) →
      ∃ rows, formatRowsFrom i js = some rows ∧ rows.length = js.length := by
  induction js with
  | nil => exact fun i _ => ⟨[], rfl, rfl⟩
  | cons j rest ih =>
    intro i h
    obtain ⟨r, hr⟩ := Option.isSome_iff_exists.mp
      (formatOne_isSome i j (h j (by simp)))
    obtain ⟨rows, hrows, hlen⟩ := ih (i + 1) (fun u hu => h u (by simp [hu]))
    exact ⟨r :: rows, by simp [formatRowsFrom, hr, hrows], by simp [hlen]⟩

/-- The `id` fields of the produced rows are the enumeration indices, in
order. -/
theorem formatRowsFrom_map_id (js : List Journey) :
    ∀ i rows, formatRowsFrom i js = some rows →
      rows.map (fun r => r.id) = List.range' i js.length := by
  induction js with
  | nil =>
    intro i rows h
    simp only [formatRowsFrom, Option.some_inj] at h
    subst h
    rfl
  | cons j rest ih =>
    intro i rows h
    unfold formatRowsFrom at h
    simp only [Option.bind_eq_bind, Option.bind_eq_some, Option.pure_def,
      Option.some_inj] at h
    obtain ⟨r0, hr0, rows0, hrows0, heq⟩ := h
    subst heq
    simp [List.range', formatOne_id hr0, ih (i + 1) rows0 hrows0]

/-- Every produced row comes from `formatOne` on some input journey. -/
theorem mem_formatRowsFrom (js : List Journey) :
    ∀ i rows r, formatRowsFrom i js = some rows → r ∈ rows →
      ∃ k j, j ∈ js ∧ formatOne k j = some r := by
  induction js with
  | nil =>
    intro i rows r h hr
    simp only [formatRowsFrom, Option.some_inj] at h
    subst h
    cases hr
  | cons j rest ih =>
    intro i rows r h hr
    unfold formatRowsFrom at h
    simp only [Option.bind_eq_bind, Option.bind_eq_some, Option.pure_def,
      Option.some_inj] at h
    obtain ⟨r0, hr0, rows0, hrows0, heq⟩ := h
    subst heq
    cases hr with
    | head => exact ⟨i, j, by simp, hr0⟩
    | tail _ hr' =>
      obtain ⟨k, j', hj', hf⟩ := ih (i + 1) rows0 r hrows0 hr'
      exact ⟨k, j', by simp [hj'], hf⟩

/-- The sorting step permutes the rows (whatever the sort key). -/
theorem sortRows_perm (sort_by : String) (rows : List RowFull) :
    (sortRows sort_by rows).Perm rows := by
  unfold sortRows
  split
  · exact List.perm_insertionSort _ _
  · exact List.perm_insertionSort _ _

/-- Inversion of a successful `format_journey_data` call. -/
theorem format_journey_data_inv {js : List Journey} {sb : String}
    {out : List NormalizedRecord × List Journey}
    (h : format_journey_data js sb = some out) :
    ∃ rows, formatRows js = some rows
      ∧ out = ((sortRows sb rows).map RowFull.dropHelpers, js) := by
  unfold format_journey_data at h
  simp only [Option.bind_eq_bind, Option.bind_eq_some] at h
  obtain ⟨rows, hrows, heq⟩ := h
  cases he : rows.isEmpty with
  | true =>
    rw [he] at heq
    exact absurd heq (by simp)
  | false =>
    rw [he] at heq
    simp at heq
    exact ⟨rows, hrows, heq.symm⟩

/-- C2 (amended): when both timestamps parse, the computed delay is the
TRUNCATION TOWARD ZERO of the second difference divided by 60 (`Int.tdiv`,
Python's `int()` conversion), which agrees with flooring exactly when the
difference is non-negative; and a delay is only computed when both the
scheduled and actual fields are present (and non-empty), otherwise it is 0. -/
theorem claim_C2_truncation (scheduled_time actual_time : String) (sdt adt : DT)
    (hs : parseDT scheduled_time = some sdt)
    (ha : parseDT actual_time = some adt) :
    calculate_delay_minutes scheduled_time actual_time
      = some (Int.tdiv ((dtSeconds adt : Int) - (dtSeconds sdt : Int)) 60)
    ∧ (0 ≤ (dtSeconds adt : Int) - (dtSeconds sdt : Int) →
        Int.tdiv ((dtSeconds adt : Int) - (dtSeconds sdt : Int)) 60
          = Int.fdiv ((dtSeconds adt : Int) - (dtSeconds sdt : Int)) 60)
    ∧ (∀ x : Option String,
        sectionDelay none x = some 0 ∧ sectionDelay x none = some 0) := by
  refine ⟨?_, ?_, ?_⟩
  · unfold calculate_delay_minutes
    rw [hs, ha]
    rfl
  · intro hd
    rw [Int.tdiv_eq_ediv hd (by decide), Int.fdiv_eq_ediv _ (by decide)]
  · intro x
    cases x <;> exact ⟨rfl, rfl⟩

/-- Witness for C2 (amended): the scenario's departure pair, 420 seconds
late. -/
theorem claim_C2_truncation_witness :
    calculate_delay_minutes "20240101T080000" "20240101T080700"
      = some (Int.tdiv ((dtSeconds ⟨2024, 1, 1, 8, 7, 0⟩ : Int)
          - (dtSeconds ⟨2024, 1, 1, 8, 0, 0⟩ : Int)) 60) :=
  (claim_C2_truncation "20240101T080000" "20240101T080700"
    ⟨2024, 1, 1, 8, 0, 0⟩ ⟨2024, 1, 1, 8, 7, 0⟩ (by decide) (by decide)).1

/-- C3 (amended): the formatter produces the whole batch — one record per
journey, the input list returned unchanged — provided the batch is non-empty
and every journey carries parseable `departure_date_time` and
`arrival_date_time` fields, a `duration`, and delay fields that parse when
present; a journey lacking a `public_transport` section degrades to `"N/A"`
placeholders and zero delays. Missing journey-level fields raise
(`KeyError`; see the counterexample), and so does the empty batch itself
(`pd.DataFrame([])` has no `_departure_dt` column to sort by). -/
theorem claim_C3_degradation (journeys : List Journey) (sort_by : String)
    (hne : journeys ≠ [])
    (h : ∀ j ∈ journeys, wellFormedJourney j = true) :
    (∃ out, format_journey_data journeys sort_by = some out
        ∧ out.1.length = journeys.length ∧ out.2 = journeys)
    ∧ format_journey_data [] sort_by = none
    ∧ (∀ idx j r, (j.sections.getD []).find? isPT = none →
        formatOne idx j = some r →
        r.provider = "N/A" ∧ r.train_number = "N/A" ∧ r.from_station = "N/A"
          ∧ r.to_station = "N/A" ∧ r.departure_delay_minutes = 0
          ∧ r.arrival_delay_minutes = 0) := by
  refine ⟨?_, rfl, ?_⟩
  · obtain ⟨rows, hrows, hlen⟩ := formatRowsFrom_isSome journeys 0 h
    have hre : rows ≠ [] := by
      cases rows with
      | nil => exact absurd (List.length_eq_zero.mp hlen.symm) hne
      | cons _ _ => simp
    refine ⟨((sortRows sort_by rows).map RowFull.dropHelpers, journeys), ?_, ?_, rfl⟩
    · unfold format_journey_data formatRows
      rw [hrows]
      simp [hre]
    · simp [(sortRows_perm sort_by rows).length_eq, hlen]
  · intro idx j r hfind hfo
    exact formatOne_noPT hfind hfo

/-- Witness for C3 (amended): a two-journey batch, the second journey
without any `public_transport` section, is fully produced; the empty batch
yields `none`; the record of the section-less journey carries the
placeholders. -/
theorem claim_C3_degradation_witness :
    (∃ out, format_journey_data [journeyScenario, journeyNoPT] "departure" = some out
        ∧ out.1.length = [journeyScenario, journeyNoPT].length
        ∧ out.2 = [journeyScenario, journeyNoPT])
    ∧ format_journey_data [] "departure" = none
    ∧ (rowNoPT.provider = "N/A" ∧ rowNoPT.train_number = "N/A"
        ∧ rowNoPT.from_station = "N/A" ∧ rowNoPT.to_station = "N/A"
        ∧ rowNoPT.departure_delay_minutes = 0
        ∧ rowNoPT.arrival_delay_minutes = 0) :=
  ⟨(claim_C3_degradation [journeyScenario, journeyNoPT] "departure"
      (by decide) (by decide)).1,
    (claim_C3_degradation [journeyScenario] "departure"
      (by decide) (by decide)).2.1,
    (claim_C3_degradation [journeyNoPT] "departure"
      (by decide) (by decide)).2.2
      0 journeyNoPT rowNoPT (by decide) (by decide)⟩

/-- C5: the `id` of each record is its journey's index in the pre-sort input
sequence (the classifier's output), and the sorted output is a permutation
of the pre-sort records — records, `id` included, are not reassigned after
sorting, whatever `sort_by` is. -/
theorem claim_C5_stable_ids (journeys : List Journey) (sort_by : String)
    (rows : List RowFull) (out : List NormalizedRecord × List Journey)
    (hrows : formatRows journeys = some rows)
    (hout : format_journey_data journeys sort_by = some out) :
    (rows.map RowFull.dropHelpers).map (fun r => r.id) = List.range journeys.length
    ∧ out.1.Perm (rows.map RowFull.dropHelpers) := by
  have hid := formatRowsFrom_map_id journeys 0 rows hrows
  constructor
  · rw [List.map_map]
    rw [show ((fun r : NormalizedRecord => r.id) ∘ RowFull.dropHelpers)
        = (fun r : RowFull => r.id) from rfl]
    rw [hid, List.range_eq_range']
  · obtain ⟨rows', hrows', heq⟩ := format_journey_data_inv hout
    rw [hrows] at hrows'
    have hre : rows' = rows := (Option.some_inj.mp hrows').symm
    subst heq
    rw [hre]
    exact (sortRows_perm sort_by rows).map RowFull.dropHelpers

/-- Witness for C5: the scenario batch sorted by arrival. -/
theorem claim_C5_stable_ids_witness :
    ([rowScenario].map RowFull.dropHelpers).map (fun r => r.id) = List.range 1
    ∧ ([rowScenario].map RowFull.dropHelpers,
        [journeyScenario]).1.Perm ([rowScenario].map RowFull.dropHelpers) :=
  claim_C5_stable_ids [journeyScenario] "arrival" [rowScenario]
    ([rowScenario].map RowFull.dropHelpers, [journeyScenario])
    (by decide) (by decide)

/-- C6: every record the formatter outputs has `status = "Delayed"` iff one
of its delay fields strictly exceeds 5 minutes, and the only other status
value is `"On Time"`. -/
theorem claim_C6_status (journeys : List Journey) (sort_by : String)
    (out : List NormalizedRecord × List Journey) (r : NormalizedRecord)
    (hout : format_journey_data journeys sort_by = some out)
    (hr : r ∈ out.1) :
    (r.status = "Delayed"
      ↔ (r.departure_delay_minutes > 5 ∨ r.arrival_delay_minutes > 5))
    ∧ (r.status = "Delayed" ∨ r.status = "On Time") := by
  obtain ⟨rows, hrows, heq⟩ := format_journey_data_inv hout
  subst heq
  simp only [List.mem_map] at hr
  obtain ⟨rf, hrf, hdrop⟩ := hr
  have hrf' : rf ∈ rows := (sortRows_perm sort_by rows).subset hrf
  obtain ⟨k, j, _, hfo⟩ := mem_formatRowsFrom journeys 0 rows rf hrows hrf'
  have hst := formatOne_status hfo
  subst hdrop
  rw [show (RowFull.dropHelpers rf).status = rf.status from rfl,
    show (RowFull.dropHelpers rf).departure_delay_minutes
      = rf.departure_delay_minutes from rfl,
    show (RowFull.dropHelpers rf).arrival_delay_minutes
      = rf.arrival_delay_minutes from rfl, hst]
  by_cases h1 : rf.departure_delay_minutes > 5 <;>
    by_cases h2 : rf.arrival_delay_minutes > 5 <;>
      simp [h1, h2]

/-- Witness for C6: the scenario record. -/
theorem claim_C6_status_witness :
    (rowScenario.dropHelpers.status = "Delayed"
      ↔ (rowScenario.dropHelpers.departure_delay_minutes > 5
          ∨ rowScenario.dropHelpers.arrival_delay_minutes > 5))
    ∧ (rowScenario.dropHelpers.status = "Delayed"
        ∨ rowScenario.dropHelpers.status = "On Time") :=
  claim_C6_status [journeyScenario] "departure"
    ([rowScenario].map RowFull.dropHelpers, [journeyScenario])
    rowScenario.dropHelpers (by decide) (by decide)

/-- The section loop ignores a leading run of non-`public_transport`
sections. -/
theorem checkSections_append_nonPT (provider_filter : Option String)
    (pre l : List Section) (hpre : ∀ t ∈ pre, isPT t = false) :
    checkSections (pre ++ l) provider_filter = checkSections l provider_filter := by
  induction pre with
  | nil => rfl
  | cons t ts ih =>
    have ht : isPT t = false := hpre t (by simp)
    have ih' := ih (fun u hu => hpre u (by simp [hu]))
    simp [checkSections, ht, ih']

/-- C7: classification decides at the first `public_transport` section:
with a non-`public_transport` prefix `pre` and a first `public_transport`
section `s`, the outcome does not depend on the sections after `s` at all,
and when `s` is not high-speed the journey is excluded even if a later
`public_transport` section is high-speed. -/
theorem claim_C7_first_pt_section (provider_filter : Option String)
    (nb : Option Int) (dep arr : Option String) (dur : Option Int)
    (pre rest rest' : List Section) (s : Section)
    (hpre : ∀ t ∈ pre, isPT t = false) (hs : isPT s = true) :
    (journeyQualifies provider_filter
        ⟨nb, some (pre ++ s :: rest), dep, arr, dur⟩
      = journeyQualifies provider_filter
        ⟨nb, some (pre ++ s :: rest'), dep, arr, dur⟩)
    ∧ (isHighSpeedSection s = false →
        journeyQualifies provider_filter
          ⟨nb, some (pre ++ s :: rest), dep, arr, dur⟩ = false) := by
  have key : ∀ l : List Section,
      checkSections (pre ++ s :: l) provider_filter
        = sectionDecision provider_filter s := by
    intro l
    rw [checkSections_append_nonPT provider_filter pre _ hpre]
    simp [checkSections, hs]
  constructor
  · unfold journeyQualifies
    simp only [Option.getD_some]
    rw [key rest, key rest']
  · intro hns
    have hdec : sectionDecision provider_filter s = false := by
      unfold sectionDecision
      rw [hns]
      simp
    unfold journeyQualifies
    simp only [Option.getD_some]
    rw [key rest, hdec]
    simp

/-- Witness for C7: a coach first section followed by a high-speed section;
the trailing high-speed section neither changes the outcome nor saves the
journey. -/
theorem claim_C7_first_pt_section_witness :
    (journeyQualifies none
        ⟨some 0, some ([] ++ sectionCoach :: [sectionScenario]),
          some "20240101T080700", some "20240101T100000", some 6780⟩
      = journeyQualifies none
        ⟨some 0, some ([] ++ sectionCoach :: []),
          some "20240101T080700", some "20240101T100000", some 6780⟩)
    ∧ journeyQualifies none
        ⟨some 0, some ([] ++ sectionCoach :: [sectionScenario]),
          some "20240101T080700", some "20240101T100000", some 6780⟩ = false := by
  have h := claim_C7_first_pt_section none (some 0)
    (some "20240101T080700") (some "20240101T100000") (some 6780)
    [] [sectionScenario] [] sectionCoach (by simp) (by decide)
  exact ⟨h.1, h.2 (by decide)⟩

/-- C8 (amended): the classifier is total and degrades gracefully — a journey
with a missing `sections` field does not qualify; one whose first
`public_transport` section lacks a `physical_mode` (in particular, lacks
`display_informations` entirely) does not qualify; but a MISSING
`nb_transfers` is treated as 0 (direct), so such a journey is classified
exactly like one with `nb_transfers = 0`, and may well qualify. -/
theorem claim_C8_degradation (provider_filter : Option String) (j : Journey) :
    (j.sections = none → journeyQualifies provider_filter j = false)
    ∧ (∀ s, (j.sections.getD []).find? isPT = some s →
        (s.display_informations.getD DisplayInfo.empty).physical_mode = none →
        journeyQualifies provider_filter j = false)
    ∧ (journeyQualifies provider_filter { j with nb_transfers := none }
        = journeyQualifies provider_filter { j with nb_transfers := some 0 }) := by
  refine ⟨?_, ?_, ?_⟩
  · intro hsec
    unfold journeyQualifies
    rw [hsec]
    simp [checkSections]
  · intro s hfind hphys
    have hns : isHighSpeedSection s = false := by
      simp only [isHighSpeedSection, hphys]
      decide
    have hdec : sectionDecision provider_filter s = false := by
      unfold sectionDecision
      rw [hns]
      simp
    unfold journeyQualifies
    rw [checkSections_eq_find, hfind]
    simp [hdec]
  · simp [journeyQualifies]

/-- Witness for C8 (amended): a section-less journey and a journey whose
only `public_transport` section has no `display_informations` are both
rejected; the scenario journey without `nb_transfers` is classified like the
same journey with `nb_transfers = 0`. -/
theorem claim_C8_degradation_witness :
    journeyQualifies none journeyBare = false
    ∧ journeyQualifies none journeyNoDI = false
    ∧ journeyQualifies none { journeyNoTransfers with nb_transfers := none }
        = journeyQualifies none { journeyNoTransfers with nb_transfers := some 0 } :=
  ⟨(claim_C8_degradation none journeyBare).1 rfl,
    (claim_C8_degradation none journeyNoDI).2.1 sectionNoDI (by decide) rfl,
    (claim_C8_degradation none journeyNoTransfers).2.2⟩
